import Mathlib

/-!
Verification of the battle-log analytics engine of the Pokemon-battle-ai
repository against its design specification.

The definitions below are a shallow embedding of the Python source:

* `src/data/pokemon_data.py` — the type/species registry
  (`TYPE_EFFECTIVENESS`, `POKEMON_TYPES`, `POKEMON_BST`, `POKEMON_TIERS`,
  `get_type_effectiveness`, `get_pokemon_types`, `get_pokemon_bst`,
  `get_pokemon_tier`, `calculate_matchup_score`);
* `src/notebooks/EDA_notebook_ready.py` — `calculate_team_type_advantage`
  and `extract_pre_battle_features`;
* `src/notebooks/ML_Training_Advanced.py` — `calculate_battle_metrics`
  (the timeline analyzer).

Modelling conventions:
* Python dicts used as lookup tables become association lists with
  `List.lookup` (all source tables have no conflicting duplicate keys, so
  first-match and last-match semantics coincide).
* Python floats become `Rat`.  Every multiplier in the table is dyadic, and
  every arithmetic operation performed by the engine on these values
  (max, ±, comparison against 0.5/2.0, division) is exact in IEEE floats at
  these magnitudes, so `Rat` is a faithful model.
* `np.mean l = l.sum / l.length`; `np.std` is the square root of the
  population variance, and the fields named `*_std` below store that
  variance instead (the square root of a nonnegative rational is not
  rational).  Since `Real.sqrt` is injective on nonnegative arguments, all
  equality / zero / swap-invariance statements proved about these fields
  transfer verbatim to the square-rooted values.
* Missing dict fields become `Option`; Python truthiness tests on a field
  (`if p.get('level')`) exclude both a missing field and the value `0`.
* The notebooks guard the registry-dependent code with the import flag
  `POKEMON_DATA_AVAILABLE`; the registry is part of this repository, so the
  embedding models the flag as true.
-/

/-- The type-effectiveness table TYPE_EFFECTIVENESS from src/data/pokemon_data.py,
transcribed entry for entry (the multiplier 0.5 written as mkRat 1 2). -/
def TYPE_EFFECTIVENESS : List ((String × String) × Rat) := [
  (("Normal", "Rock"), mkRat 1 2),
  (("Normal", "Ghost"), 0),
  (("Normal", "Steel"), mkRat 1 2),
  (("Fire", "Fire"), mkRat 1 2),
  (("Fire", "Water"), mkRat 1 2),
  (("Fire", "Grass"), 2),
  (("Fire", "Ice"), 2),
  (("Fire", "Bug"), 2),
  (("Fire", "Rock"), mkRat 1 2),
  (("Fire", "Dragon"), mkRat 1 2),
  (("Fire", "Steel"), 2),
  (("Water", "Fire"), 2),
  (("Water", "Water"), mkRat 1 2),
  (("Water", "Grass"), mkRat 1 2),
  (("Water", "Ground"), 2),
  (("Water", "Rock"), 2),
  (("Water", "Dragon"), mkRat 1 2),
  (("Electric", "Water"), 2),
  (("Electric", "Electric"), mkRat 1 2),
  (("Electric", "Grass"), mkRat 1 2),
  (("Electric", "Ground"), 0),
  (("Electric", "Flying"), 2),
  (("Electric", "Dragon"), mkRat 1 2),
  (("Grass", "Fire"), mkRat 1 2),
  (("Grass", "Water"), 2),
  (("Grass", "Grass"), mkRat 1 2),
  (("Grass", "Poison"), mkRat 1 2),
  (("Grass", "Ground"), 2),
  (("Grass", "Flying"), mkRat 1 2),
  (("Grass", "Bug"), mkRat 1 2),
  (("Grass", "Rock"), 2),
  (("Grass", "Dragon"), mkRat 1 2),
  (("Grass", "Steel"), mkRat 1 2),
  (("Ice", "Fire"), mkRat 1 2),
  (("Ice", "Water"), mkRat 1 2),
  (("Ice", "Grass"), 2),
  (("Ice", "Ice"), mkRat 1 2),
  (("Ice", "Ground"), 2),
  (("Ice", "Flying"), 2),
  (("Ice", "Dragon"), 2),
  (("Ice", "Steel"), mkRat 1 2),
  (("Fighting", "Normal"), 2),
  (("Fighting", "Ice"), 2),
  (("Fighting", "Poison"), mkRat 1 2),
  (("Fighting", "Flying"), mkRat 1 2),
  (("Fighting", "Psychic"), mkRat 1 2),
  (("Fighting", "Bug"), mkRat 1 2),
  (("Fighting", "Rock"), 2),
  (("Fighting", "Ghost"), 0),
  (("Fighting", "Dark"), 2),
  (("Fighting", "Steel"), 2),
  (("Fighting", "Fairy"), mkRat 1 2),
  (("Poison", "Grass"), 2),
  (("Poison", "Poison"), mkRat 1 2),
  (("Poison", "Ground"), mkRat 1 2),
  (("Poison", "Rock"), mkRat 1 2),
  (("Poison", "Ghost"), mkRat 1 2),
  (("Poison", "Steel"), 0),
  (("Poison", "Fairy"), 2),
  (("Ground", "Fire"), 2),
  (("Ground", "Electric"), 2),
  (("Ground", "Grass"), mkRat 1 2),
  (("Ground", "Poison"), 2),
  (("Ground", "Flying"), 0),
  (("Ground", "Bug"), mkRat 1 2),
  (("Ground", "Rock"), 2),
  (("Ground", "Steel"), 2),
  (("Flying", "Electric"), mkRat 1 2),
  (("Flying", "Grass"), 2),
  (("Flying", "Fighting"), 2),
  (("Flying", "Bug"), 2),
  (("Flying", "Rock"), mkRat 1 2),
  (("Flying", "Steel"), mkRat 1 2),
  (("Psychic", "Fighting"), 2),
  (("Psychic", "Poison"), 2),
  (("Psychic", "Psychic"), mkRat 1 2),
  (("Psychic", "Dark"), 0),
  (("Psychic", "Steel"), mkRat 1 2),
  (("Bug", "Fire"), mkRat 1 2),
  (("Bug", "Grass"), 2),
  (("Bug", "Fighting"), mkRat 1 2),
  (("Bug", "Poison"), mkRat 1 2),
  (("Bug", "Flying"), mkRat 1 2),
  (("Bug", "Psychic"), 2),
  (("Bug", "Ghost"), mkRat 1 2),
  (("Bug", "Dark"), 2),
  (("Bug", "Steel"), mkRat 1 2),
  (("Bug", "Fairy"), mkRat 1 2),
  (("Rock", "Fire"), 2),
  (("Rock", "Ice"), 2),
  (("Rock", "Fighting"), mkRat 1 2),
  (("Rock", "Ground"), mkRat 1 2),
  (("Rock", "Flying"), 2),
  (("Rock", "Bug"), 2),
  (("Rock", "Steel"), mkRat 1 2),
  (("Ghost", "Normal"), 0),
  (("Ghost", "Psychic"), 2),
  (("Ghost", "Ghost"), 2),
  (("Ghost", "Dark"), mkRat 1 2),
  (("Dragon", "Dragon"), 2),
  (("Dragon", "Steel"), mkRat 1 2),
  (("Dragon", "Fairy"), 0),
  (("Dark", "Fighting"), mkRat 1 2),
  (("Dark", "Psychic"), 2),
  (("Dark", "Ghost"), 2),
  (("Dark", "Dark"), mkRat 1 2),
  (("Dark", "Fairy"), mkRat 1 2),
  (("Steel", "Fire"), mkRat 1 2),
  (("Steel", "Water"), mkRat 1 2),
  (("Steel", "Electric"), mkRat 1 2),
  (("Steel", "Ice"), 2),
  (("Steel", "Rock"), 2),
  (("Steel", "Steel"), mkRat 1 2),
  (("Steel", "Fairy"), 2),
  (("Fairy", "Fire"), mkRat 1 2),
  (("Fairy", "Fighting"), 2),
  (("Fairy", "Poison"), mkRat 1 2),
  (("Fairy", "Dragon"), 2),
  (("Fairy", "Dark"), 2),
  (("Fairy", "Steel"), mkRat 1 2)
]

/-- The species-to-types table POKEMON_TYPES from src/data/pokemon_data.py
(the source lists Garchomp twice with the same value; both occurrences are kept). -/
def POKEMON_TYPES : List (String × List String) := [
  ("Venusaur", ["Grass", "Poison"]),
  ("Charizard", ["Fire", "Flying"]),
  ("Blastoise", ["Water"]),
  ("Mewtwo", ["Psychic"]),
  ("Mew", ["Psychic"]),
  ("Lugia", ["Psychic", "Flying"]),
  ("Ho-Oh", ["Fire", "Flying"]),
  ("Kyogre", ["Water"]),
  ("Groudon", ["Ground"]),
  ("Rayquaza", ["Dragon", "Flying"]),
  ("Dialga", ["Steel", "Dragon"]),
  ("Palkia", ["Water", "Dragon"]),
  ("Giratina", ["Ghost", "Dragon"]),
  ("Arceus", ["Normal"]),
  ("Reshiram", ["Dragon", "Fire"]),
  ("Zekrom", ["Dragon", "Electric"]),
  ("Kyurem", ["Dragon", "Ice"]),
  ("Xerneas", ["Fairy"]),
  ("Yveltal", ["Dark", "Flying"]),
  ("Zygarde", ["Dragon", "Ground"]),
  ("Solgaleo", ["Psychic", "Steel"]),
  ("Lunala", ["Psychic", "Ghost"]),
  ("Necrozma", ["Psychic"]),
  ("Zacian", ["Fairy", "Steel"]),
  ("Zamazenta", ["Fighting", "Steel"]),
  ("Eternatus", ["Poison", "Dragon"]),
  ("Calyrex", ["Psychic", "Grass"]),
  ("Koraidon", ["Fighting", "Dragon"]),
  ("Miraidon", ["Electric", "Dragon"]),
  ("Dragonite", ["Dragon", "Flying"]),
  ("Tyranitar", ["Rock", "Dark"]),
  ("Salamence", ["Dragon", "Flying"]),
  ("Metagross", ["Steel", "Psychic"]),
  ("Garchomp", ["Dragon", "Ground"]),
  ("Hydreigon", ["Dark", "Dragon"]),
  ("Goodra", ["Dragon"]),
  ("Kommo-o", ["Dragon", "Fighting"]),
  ("Dragapult", ["Dragon", "Ghost"]),
  ("Baxcalibur", ["Dragon", "Ice"]),
  ("Pikachu", ["Electric"]),
  ("Raichu", ["Electric"]),
  ("Gengar", ["Ghost", "Poison"]),
  ("Alakazam", ["Psychic"]),
  ("Machamp", ["Fighting"]),
  ("Golem", ["Rock", "Ground"]),
  ("Slowbro", ["Water", "Psychic"]),
  ("Magnezone", ["Electric", "Steel"]),
  ("Lucario", ["Fighting", "Steel"]),
  ("Garchomp", ["Dragon", "Ground"]),
  ("Togekiss", ["Fairy", "Flying"]),
  ("Rotom", ["Electric", "Ghost"]),
  ("Excadrill", ["Ground", "Steel"]),
  ("Conkeldurr", ["Fighting"]),
  ("Ferrothorn", ["Grass", "Steel"]),
  ("Chandelure", ["Ghost", "Fire"]),
  ("Haxorus", ["Dragon"]),
  ("Volcarona", ["Bug", "Fire"]),
  ("Greninja", ["Water", "Dark"]),
  ("Talonflame", ["Fire", "Flying"]),
  ("Aegislash", ["Steel", "Ghost"]),
  ("Sylveon", ["Fairy"]),
  ("Mimikyu", ["Ghost", "Fairy"]),
  ("Toxapex", ["Poison", "Water"]),
  ("Tapu Koko", ["Electric", "Fairy"]),
  ("Tapu Lele", ["Psychic", "Fairy"]),
  ("Tapu Bulu", ["Grass", "Fairy"]),
  ("Tapu Fini", ["Water", "Fairy"]),
  ("Landorus", ["Ground", "Flying"]),
  ("Thundurus", ["Electric", "Flying"]),
  ("Tornadus", ["Flying"]),
  ("Heatran", ["Fire", "Steel"]),
  ("Latios", ["Dragon", "Psychic"]),
  ("Latias", ["Dragon", "Psychic"]),
  ("Cresselia", ["Psychic"]),
  ("Manaphy", ["Water"]),
  ("Darkrai", ["Dark"]),
  ("Shaymin", ["Grass"]),
  ("Victini", ["Psychic", "Fire"]),
  ("Keldeo", ["Water", "Fighting"]),
  ("Genesect", ["Bug", "Steel"]),
  ("Diancie", ["Rock", "Fairy"]),
  ("Hoopa", ["Psychic", "Ghost"]),
  ("Volcanion", ["Fire", "Water"]),
  ("Magearna", ["Steel", "Fairy"]),
  ("Marshadow", ["Fighting", "Ghost"]),
  ("Zeraora", ["Electric"]),
  ("Meltan", ["Steel"]),
  ("Melmetal", ["Steel"]),
  ("Meowscarada", ["Grass", "Dark"]),
  ("Skeledirge", ["Fire", "Ghost"]),
  ("Quaquaval", ["Water", "Fighting"]),
  ("Lechonk", ["Normal"]),
  ("Oinkologne", ["Normal"]),
  ("Pawmi", ["Electric"]),
  ("Pawmo", ["Electric", "Fighting"]),
  ("Pawmot", ["Electric", "Fighting"]),
  ("Tandemaus", ["Normal"]),
  ("Maushold", ["Normal"]),
  ("Fidough", ["Fairy"]),
  ("Dachsbun", ["Fairy"]),
  ("Smoliv", ["Grass", "Normal"]),
  ("Dolliv", ["Grass", "Normal"]),
  ("Arboliva", ["Grass", "Normal"]),
  ("Squawkabilly", ["Normal", "Flying"]),
  ("Nacli", ["Rock"]),
  ("Naclstack", ["Rock"]),
  ("Garganacl", ["Rock"]),
  ("Charcadet", ["Fire"]),
  ("Armarouge", ["Fire", "Psychic"]),
  ("Ceruledge", ["Fire", "Ghost"]),
  ("Tadbulb", ["Electric"]),
  ("Bellibolt", ["Electric"]),
  ("Wattrel", ["Electric", "Flying"]),
  ("Kilowattrel", ["Electric", "Flying"]),
  ("Maschiff", ["Dark"]),
  ("Mabosstiff", ["Dark"]),
  ("Shroodle", ["Poison", "Normal"]),
  ("Grafaiai", ["Poison", "Normal"]),
  ("Bramblin", ["Grass", "Ghost"]),
  ("Brambleghast", ["Grass", "Ghost"]),
  ("Toedscool", ["Ground", "Grass"]),
  ("Toedscruel", ["Ground", "Grass"]),
  ("Klawf", ["Rock"]),
  ("Capsakid", ["Grass"]),
  ("Scovillain", ["Grass", "Fire"]),
  ("Rellor", ["Bug"]),
  ("Rabsca", ["Bug", "Psychic"]),
  ("Flittle", ["Psychic"]),
  ("Espathra", ["Psychic"]),
  ("Tinkatink", ["Fairy", "Steel"]),
  ("Tinkatuff", ["Fairy", "Steel"]),
  ("Tinkaton", ["Fairy", "Steel"]),
  ("Wiglett", ["Water"]),
  ("Wugtrio", ["Water"]),
  ("Bombirdier", ["Flying", "Dark"]),
  ("Finizen", ["Water"]),
  ("Palafin", ["Water"]),
  ("Varoom", ["Steel", "Poison"]),
  ("Revavroom", ["Steel", "Poison"]),
  ("Cyclizar", ["Dragon", "Normal"]),
  ("Orthworm", ["Steel"]),
  ("Glimmet", ["Rock", "Poison"]),
  ("Glimmora", ["Rock", "Poison"]),
  ("Greavard", ["Ghost"]),
  ("Houndstone", ["Ghost"]),
  ("Flamigo", ["Flying", "Fighting"]),
  ("Cetoddle", ["Ice"]),
  ("Cetitan", ["Ice"]),
  ("Veluza", ["Water", "Psychic"]),
  ("Dondozo", ["Water"]),
  ("Tatsugiri", ["Dragon", "Water"]),
  ("Annihilape", ["Fighting", "Ghost"]),
  ("Clodsire", ["Poison", "Ground"]),
  ("Farigiraf", ["Normal", "Psychic"]),
  ("Dudunsparce", ["Normal"]),
  ("Kingambit", ["Dark", "Steel"]),
  ("Great Tusk", ["Ground", "Fighting"]),
  ("Scream Tail", ["Fairy", "Psychic"]),
  ("Brute Bonnet", ["Grass", "Dark"]),
  ("Flutter Mane", ["Ghost", "Fairy"]),
  ("Slither Wing", ["Bug", "Fighting"]),
  ("Sandy Shocks", ["Electric", "Ground"]),
  ("Iron Treads", ["Ground", "Steel"]),
  ("Iron Bundle", ["Ice", "Water"]),
  ("Iron Hands", ["Fighting", "Electric"]),
  ("Iron Jugulis", ["Dark", "Flying"]),
  ("Iron Moth", ["Fire", "Poison"]),
  ("Iron Thorns", ["Rock", "Electric"]),
  ("Frigibax", ["Dragon", "Ice"]),
  ("Arctibax", ["Dragon", "Ice"]),
  ("Gholdengo", ["Steel", "Ghost"]),
  ("Wo-Chien", ["Dark", "Grass"]),
  ("Chien-Pao", ["Dark", "Ice"]),
  ("Ting-Lu", ["Dark", "Ground"]),
  ("Chi-Yu", ["Dark", "Fire"]),
  ("Roaring Moon", ["Dragon", "Dark"]),
  ("Iron Valiant", ["Fairy", "Fighting"]),
  ("Walking Wake", ["Water", "Dragon"]),
  ("Iron Leaves", ["Grass", "Psychic"]),
  ("Poltchageist", ["Grass", "Ghost"]),
  ("Sinistcha", ["Grass", "Ghost"]),
  ("Okidogi", ["Poison", "Fighting"]),
  ("Munkidori", ["Poison", "Psychic"]),
  ("Fezandipiti", ["Poison", "Fairy"]),
  ("Ogerpon", ["Grass"]),
  ("Archaludon", ["Steel", "Dragon"]),
  ("Hydrapple", ["Grass", "Dragon"]),
  ("Gouging Fire", ["Fire", "Dragon"]),
  ("Raging Bolt", ["Electric", "Dragon"]),
  ("Iron Boulder", ["Rock", "Psychic"]),
  ("Iron Crown", ["Steel", "Psychic"]),
  ("Terapagos", ["Normal"]),
  ("Pecharunt", ["Poison", "Ghost"]),
  ("Rotom-Wash", ["Electric", "Water"]),
  ("Rotom-Heat", ["Electric", "Fire"]),
  ("Rotom-Frost", ["Electric", "Ice"]),
  ("Rotom-Fan", ["Electric", "Flying"]),
  ("Rotom-Mow", ["Electric", "Grass"]),
  ("Landorus-Therian", ["Ground", "Flying"]),
  ("Thundurus-Therian", ["Electric", "Flying"]),
  ("Tornadus-Therian", ["Flying"]),
  ("Urshifu", ["Fighting", "Dark"]),
  ("Urshifu-Rapid-Strike", ["Fighting", "Water"]),
  ("Enamorus", ["Fairy", "Flying"]),
  ("Enamorus-Therian", ["Fairy", "Flying"]),
  ("Ogerpon-Wellspring", ["Grass", "Water"]),
  ("Ogerpon-Hearthflame", ["Grass", "Fire"]),
  ("Ogerpon-Cornerstone", ["Grass", "Rock"])
]

/-- The species-to-base-stat-total table POKEMON_BST from src/data/pokemon_data.py. -/
def POKEMON_BST : List (String × Nat) := [
  ("Arceus", 720),
  ("Mewtwo", 680),
  ("Lugia", 680),
  ("Ho-Oh", 680),
  ("Rayquaza", 680),
  ("Dialga", 680),
  ("Palkia", 680),
  ("Giratina", 680),
  ("Reshiram", 680),
  ("Zekrom", 680),
  ("Kyurem", 660),
  ("Xerneas", 680),
  ("Yveltal", 680),
  ("Zygarde", 708),
  ("Solgaleo", 680),
  ("Lunala", 680),
  ("Necrozma", 600),
  ("Zacian", 670),
  ("Zamazenta", 670),
  ("Eternatus", 690),
  ("Calyrex", 500),
  ("Koraidon", 670),
  ("Miraidon", 670),
  ("Kyogre", 670),
  ("Groudon", 670),
  ("Dragonite", 600),
  ("Tyranitar", 600),
  ("Salamence", 600),
  ("Metagross", 600),
  ("Garchomp", 600),
  ("Hydreigon", 600),
  ("Goodra", 600),
  ("Kommo-o", 600),
  ("Dragapult", 600),
  ("Baxcalibur", 600),
  ("Venusaur", 525),
  ("Charizard", 534),
  ("Blastoise", 530),
  ("Meowscarada", 530),
  ("Skeledirge", 534),
  ("Quaquaval", 530),
  ("Gengar", 500),
  ("Alakazam", 500),
  ("Machamp", 505),
  ("Golem", 495),
  ("Slowbro", 490),
  ("Magnezone", 535),
  ("Lucario", 525),
  ("Togekiss", 545),
  ("Rotom", 520),
  ("Excadrill", 508),
  ("Conkeldurr", 505),
  ("Ferrothorn", 489),
  ("Chandelure", 520),
  ("Haxorus", 540),
  ("Volcarona", 550),
  ("Greninja", 530),
  ("Talonflame", 499),
  ("Aegislash", 520),
  ("Sylveon", 525),
  ("Mimikyu", 476),
  ("Toxapex", 495),
  ("Landorus", 600),
  ("Thundurus", 580),
  ("Tornadus", 580),
  ("Heatran", 600),
  ("Latios", 600),
  ("Latias", 600),
  ("Cresselia", 600),
  ("Manaphy", 600),
  ("Darkrai", 600),
  ("Shaymin", 600),
  ("Victini", 600),
  ("Keldeo", 580),
  ("Genesect", 600),
  ("Diancie", 600),
  ("Hoopa", 600),
  ("Volcanion", 600),
  ("Magearna", 600),
  ("Marshadow", 600),
  ("Zeraora", 600),
  ("Melmetal", 600),
  ("Tapu Koko", 570),
  ("Tapu Lele", 570),
  ("Tapu Bulu", 570),
  ("Tapu Fini", 570),
  ("Gholdengo", 550),
  ("Kingambit", 550),
  ("Iron Valiant", 570),
  ("Flutter Mane", 570),
  ("Roaring Moon", 590),
  ("Great Tusk", 570),
  ("Iron Treads", 570),
  ("Palafin", 457),
  ("Tinkaton", 506),
  ("Annihilape", 535),
  ("Clodsire", 430),
  ("Farigiraf", 520),
  ("Dudunsparce", 520),
  ("Armarouge", 525),
  ("Ceruledge", 525),
  ("Bellibolt", 495),
  ("Kilowattrel", 490),
  ("Mabosstiff", 505),
  ("Grafaiai", 485),
  ("Brambleghast", 480),
  ("Toedscruel", 515),
  ("Scovillain", 486),
  ("Rabsca", 470),
  ("Espathra", 481),
  ("Wugtrio", 425),
  ("Bombirdier", 485),
  ("Revavroom", 500),
  ("Cyclizar", 501),
  ("Orthworm", 480),
  ("Glimmora", 525),
  ("Houndstone", 488),
  ("Flamigo", 500),
  ("Cetitan", 521),
  ("Veluza", 478),
  ("Dondozo", 530),
  ("Tatsugiri", 475),
  ("Wo-Chien", 570),
  ("Chien-Pao", 570),
  ("Ting-Lu", 570),
  ("Chi-Yu", 570),
  ("Walking Wake", 590),
  ("Iron Leaves", 570),
  ("Sinistcha", 508),
  ("Okidogi", 555),
  ("Munkidori", 555),
  ("Fezandipiti", 555),
  ("Ogerpon", 550),
  ("Archaludon", 600),
  ("Hydrapple", 540),
  ("Gouging Fire", 590),
  ("Raging Bolt", 590),
  ("Iron Boulder", 570),
  ("Iron Crown", 570),
  ("Terapagos", 600),
  ("Pecharunt", 600),
  ("Pikachu", 320),
  ("Raichu", 485),
  ("Lechonk", 254),
  ("Oinkologne", 489),
  ("Pawmi", 240),
  ("Pawmo", 350),
  ("Pawmot", 490),
  ("Tandemaus", 305),
  ("Maushold", 470),
  ("Fidough", 312),
  ("Dachsbun", 477),
  ("Smoliv", 260),
  ("Dolliv", 354),
  ("Arboliva", 510),
  ("Squawkabilly", 417),
  ("Nacli", 280),
  ("Naclstack", 355),
  ("Garganacl", 500),
  ("Charcadet", 288),
  ("Tadbulb", 272),
  ("Wattrel", 280),
  ("Maschiff", 340),
  ("Shroodle", 290),
  ("Bramblin", 275),
  ("Toedscool", 335),
  ("Klawf", 450),
  ("Capsakid", 304),
  ("Rellor", 270),
  ("Flittle", 280),
  ("Tinkatink", 297),
  ("Tinkatuff", 380),
  ("Wiglett", 245),
  ("Finizen", 315),
  ("Varoom", 300),
  ("Greavard", 290),
  ("Cetoddle", 334),
  ("Frigibax", 320),
  ("Arctibax", 423),
  ("Poltchageist", 308),
  ("Rotom-Wash", 520),
  ("Rotom-Heat", 520),
  ("Rotom-Frost", 520),
  ("Rotom-Fan", 520),
  ("Rotom-Mow", 520),
  ("Landorus-Therian", 600),
  ("Thundurus-Therian", 580),
  ("Tornadus-Therian", 580),
  ("Urshifu", 550),
  ("Urshifu-Rapid-Strike", 550),
  ("Enamorus", 580),
  ("Enamorus-Therian", 580),
  ("Ogerpon-Wellspring", 550),
  ("Ogerpon-Hearthflame", 550),
  ("Ogerpon-Cornerstone", 550)
]

/-- The Uber bucket of POKEMON_TIERS from src/data/pokemon_data.py. -/
def uberSpecies : List String := [
  "Arceus",
  "Mewtwo",
  "Lugia",
  "Ho-Oh",
  "Rayquaza",
  "Dialga",
  "Palkia",
  "Giratina",
  "Reshiram",
  "Zekrom",
  "Kyurem",
  "Xerneas",
  "Yveltal",
  "Zygarde",
  "Solgaleo",
  "Lunala",
  "Necrozma",
  "Zacian",
  "Zamazenta",
  "Eternatus",
  "Calyrex",
  "Koraidon",
  "Miraidon",
  "Kyogre",
  "Groudon",
  "Flutter Mane",
  "Chi-Yu"
]

/-- The OU bucket of POKEMON_TIERS from src/data/pokemon_data.py. -/
def ouSpecies : List String := [
  "Dragonite",
  "Tyranitar",
  "Salamence",
  "Metagross",
  "Garchomp",
  "Hydreigon",
  "Goodra",
  "Kommo-o",
  "Dragapult",
  "Baxcalibur",
  "Landorus",
  "Heatran",
  "Gholdengo",
  "Kingambit",
  "Iron Valiant",
  "Great Tusk",
  "Roaring Moon",
  "Volcarona",
  "Greninja",
  "Toxapex",
  "Ferrothorn",
  "Rotom-Wash"
]

/-- The UU bucket of POKEMON_TIERS from src/data/pokemon_data.py. -/
def uuSpecies : List String := [
  "Gengar",
  "Alakazam",
  "Machamp",
  "Magnezone",
  "Lucario",
  "Togekiss",
  "Excadrill",
  "Conkeldurr",
  "Chandelure",
  "Haxorus",
  "Talonflame",
  "Aegislash",
  "Sylveon",
  "Mimikyu",
  "Annihilape",
  "Tinkaton",
  "Armarouge",
  "Ceruledge"
]

/-- POKEMON_TIERS from src/data/pokemon_data.py: the tier buckets in their
source (dict insertion) order, Uber first, then OU, then UU. -/
def POKEMON_TIERS : List (String × List String) :=
  [("Uber", uberSpecies), ("OU", ouSpecies), ("UU", uuSpecies)]

/-- Function `get_pokemon_types` from src/data/pokemon_data.py:
`POKEMON_TYPES.get(species, ['Normal'])`. -/
def get_pokemon_types (species : String) : List String :=
  ((POKEMON_TYPES.lookup species).getD ["Normal"])

/-- Function `get_pokemon_bst` from src/data/pokemon_data.py:
`POKEMON_BST.get(species, 400)`. -/
def get_pokemon_bst (species : String) : Nat :=
  (POKEMON_BST.lookup species).getD 400

/-- Function `get_type_effectiveness` from src/data/pokemon_data.py:
`TYPE_EFFECTIVENESS.get((attacking_type, defending_type), 1.0)`. -/
def get_type_effectiveness (attacking_type defending_type : String) : Rat :=
  (TYPE_EFFECTIVENESS.lookup (attacking_type, defending_type)).getD 1

/-- Function `calculate_matchup_score` from src/data/pokemon_data.py: starting from
`max_effectiveness = 1.0`, take the max with `effectiveness(a, d)` over the
nested loops on attacker and defender types. -/
def calculate_matchup_score (attacker_types defender_types : List String) : Rat :=
  attacker_types.foldl
    (fun m a => defender_types.foldl (fun m2 d => max m2 (get_type_effectiveness a d)) m)
    1

/-- Function `get_pokemon_tier` from src/data/pokemon_data.py: iterate over the tier
buckets in dict order and return the first whose species list contains the
species, defaulting to `"RU"`. -/
def get_pokemon_tier (species : String) : String :=
  ((POKEMON_TIERS.find? (fun p => p.2.contains species)).map Prod.fst).getD "RU"

/-! ## Data model of a match record (section 6 of the spec, as consumed by the
notebooks).  Fields the engine never reads beyond their presence are kept so
that dependence claims are meaningful. -/

/-- One entry of a roster (`PokemonEntry` in the spec): the fields of the
per-Pokemon dicts that the feature extractors read.  `none` models a missing
dict key. -/
structure PokemonEntry where
  species : Option String
  level : Option Nat
  hp : Option Nat
  gender : Option String
  revelation_status : Option String
  known_ability : Option String
  known_item : Option String
  known_moves : List String
deriving DecidableEq

/-- A single timeline event: the extractors only read its `type` field
(`none` models an event dict without a `type` key). -/
structure TurnEvent where
  etype : Option String
deriving DecidableEq

/-- One turn: an ordered list of events (a turn dict without an `events` key
behaves exactly like an empty list, which is how the source reads it). -/
structure Turn where
  events : List TurnEvent
deriving DecidableEq

/-- A parsed match record with the fields read by the notebooks
(`battle_id`, `format_id`, `metadata.outcome.winner`/`reason`,
`metadata.timestamp_unix`, player ratings, `team_revelation.teams`, and the
turn list).  A missing `teams[p]` entry behaves exactly like an empty list
in the source (`teams.get(player_id, [])`), so teams are plain lists. -/
structure BattleRecord where
  battle_id : Option String
  format_id : Option String
  timestamp_unix : Option Int
  winner : Option String
  reason : Option String
  p1_rating : Option Int
  p2_rating : Option Int
  teams_p1 : List PokemonEntry
  teams_p2 : List PokemonEntry
  turns : List Turn
deriving DecidableEq

/-! ## RosterSummarizer / MatchupScorer embedding
(`extract_pre_battle_features` and `calculate_team_type_advantage` from
src/notebooks/EDA_notebook_ready.py). -/

/-- Source line `[p.get('species') for p in team if p.get('species')]`: species names of
a roster, skipping entries whose species is missing or the empty string
(Python truthiness). -/
def speciesNames (team : List PokemonEntry) : List String :=
  team.filterMap (fun p => p.species.bind (fun s => if s = "" then none else some s))

/-- Source line `[p.get('level', 0) for p in team if p.get('level')]`: levels, skipping
entries whose level is missing or 0 (Python truthiness). -/
def teamLevels (team : List PokemonEntry) : List Nat :=
  team.filterMap (fun p => p.level.bind (fun l => if l = 0 then none else some l))

/-- Source line `[get_in(p, ['base_stats', 'hp']) for p in team if get_in(p, ['base_stats', 'hp'])]`:
HP base stats, skipping entries whose HP is missing or 0. -/
def teamHps (team : List PokemonEntry) : List Nat :=
  team.filterMap (fun p => p.hp.bind (fun h => if h = 0 then none else some h))

/-- Mean `np.mean` over a list of naturals, as an exact rational. -/
def ratMean (l : List Nat) : Rat :=
  (l.map (fun x => (x : Rat))).sum / (l.length : Rat)

/-- The population variance `np.std(l) ** 2` over a list of naturals
(`np.std` itself is the square root of this; see the header comment). -/
def ratVar (l : List Nat) : Rat :=
  (l.map (fun x => ((x : Rat) - ratMean l) ^ 2)).sum / (l.length : Rat)

/-- The per-roster block of `extract_pre_battle_features` (the body of its
`for player_id in ['p1', 'p2']` loop, EDA_notebook_ready.py lines 303-355):
level/HP spread, species and type diversity, and BST statistics, with the
source's defaults for an empty roster and for rosters without usable
entries.  `*_std` fields store the population variance (see header). -/
structure TeamBlock where
  team_size : Nat
  avg_level : Rat
  level_std : Rat
  total_hp : Nat
  avg_hp : Rat
  species_diversity : Nat
  type_diversity : Nat
  dual_type_count : Nat
  avg_bst : Rat
  bst_std : Rat
  min_bst : Nat
  max_bst : Nat
  legendary_count : Nat
  pseudo_legendary_count : Nat
deriving DecidableEq

/-- The all-zero block written when a team list is empty
(the `else` branch of the per-player loop). -/
def zeroTeamBlock : TeamBlock :=
  ⟨0, 0, 0, 0, 0, 0, 0, 0, 0, 0, 0, 0, 0, 0⟩

/-- The per-roster feature block of `extract_pre_battle_features`.
Mirrors the source line by line; the `POKEMON_DATA_AVAILABLE` branch is
taken (the registry ships with the repository). -/
def teamBlock (team : List PokemonEntry) : TeamBlock :=
  if team.isEmpty then zeroTeamBlock
  else
    let species_list := speciesNames team
    let levels := teamLevels team
    let hps := teamHps team
    let types_list := (species_list.map get_pokemon_types).flatten
    let bst_list := species_list.map get_pokemon_bst
    { team_size := team.length
      avg_level := if levels.isEmpty then 0 else ratMean levels
      level_std := if 1 < levels.length then ratVar levels else 0
      total_hp := hps.sum
      avg_hp := if hps.isEmpty then 0 else ratMean hps
      species_diversity := species_list.dedup.length
      type_diversity := types_list.dedup.length
      dual_type_count := (species_list.filter (fun s => (get_pokemon_types s).length = 2)).length
      avg_bst := if bst_list.isEmpty then 400 else ratMean bst_list
      bst_std := if 1 < bst_list.length then ratVar bst_list else 0
      min_bst := (bst_list.min?).getD 400
      max_bst := (bst_list.max?).getD 400
      legendary_count := (bst_list.filter (fun b => 580 ≤ b)).length
      pseudo_legendary_count := (bst_list.filter (fun b => b = 600)).length }

/-- The output record of `calculate_team_type_advantage`. -/
structure TypeAdvantage where
  type_advantage_score : Int
  p1_super_effective_count : Nat
  p2_super_effective_count : Nat
  p1_resisted_count : Nat
  p2_resisted_count : Nat
deriving DecidableEq

/-- Test `matchup >= 2.0` for one ordered species pair (attacker, defender). -/
def pairSuper (attacker defender : String) : Bool :=
  2 ≤ calculate_matchup_score (get_pokemon_types attacker) (get_pokemon_types defender)

/-- The `elif matchup <= 0.5` branch for one ordered species pair: reached
only when the `matchup >= 2.0` test failed. -/
def pairResisted (attacker defender : String) : Bool :=
  let m := calculate_matchup_score (get_pokemon_types attacker) (get_pokemon_types defender)
  if 2 ≤ m then false else m ≤ mkRat 1 2

/-- Count of ordered pairs (a from t1, b from t2) satisfying `f a b`: the
nested `for p1_species ... for p2_species ...` counting loops. -/
def countPairs (f : String → String → Bool) (t1 t2 : List String) : Nat :=
  (t1.map (fun a => (t2.map (fun b => if f a b then 1 else 0)).sum)).sum

/-- Function `calculate_team_type_advantage` from src/notebooks/EDA_notebook_ready.py
(lines 243-289), with `POKEMON_DATA_AVAILABLE` true: directional
super-effective / resisted pair counts and the scalar advantage score. -/
def calculate_team_type_advantage (team1_species team2_species : List String) : TypeAdvantage :=
  let p1_super_effective := countPairs pairSuper team1_species team2_species
  let p2_super_effective := countPairs (fun a b => pairSuper b a) team1_species team2_species
  let p1_resisted := countPairs pairResisted team1_species team2_species
  let p2_resisted := countPairs (fun a b => pairResisted b a) team1_species team2_species
  { type_advantage_score :=
      ((p1_super_effective : Int) - (p1_resisted : Int))
        - ((p2_super_effective : Int) - (p2_resisted : Int))
    p1_super_effective_count := p1_super_effective
    p2_super_effective_count := p2_super_effective
    p1_resisted_count := p1_resisted
    p2_resisted_count := p2_resisted }

/-- The flat feature record produced by `extract_pre_battle_features`
(predictive mode): the two per-roster blocks, the matchup fields, the
derived cross-roster advantages, and the target label. -/
structure PreBattleFeatures where
  battle_id : Option String
  p1 : TeamBlock
  p2 : TeamBlock
  type_advantage : TypeAdvantage
  level_advantage_p1 : Rat
  hp_advantage_p1 : Rat
  bst_advantage_p1 : Rat
  team_size_difference : Nat
  winner : Option String
deriving DecidableEq

/-- Function `extract_pre_battle_features` from src/notebooks/EDA_notebook_ready.py
(lines 291-375).  Note that `team_size_difference` is
`abs(p1_team_size - p2_team_size)` in the source, and that the function
never reads `battle['turns']`. -/
def extract_pre_battle_features (battle : BattleRecord) : PreBattleFeatures :=
  let p1_species := speciesNames battle.teams_p1
  let p2_species := speciesNames battle.teams_p2
  let f1 := teamBlock battle.teams_p1
  let f2 := teamBlock battle.teams_p2
  { battle_id := battle.battle_id
    p1 := f1
    p2 := f2
    type_advantage := calculate_team_type_advantage p1_species p2_species
    level_advantage_p1 := f1.avg_level - f2.avg_level
    hp_advantage_p1 := (f1.total_hp : Rat) - (f2.total_hp : Rat)
    bst_advantage_p1 := f1.avg_bst - f2.avg_bst
    team_size_difference := ((f1.team_size : Int) - (f2.team_size : Int)).natAbs
    winner := if battle.winner = some "p1" ∨ battle.winner = some "p2" then battle.winner else none }

/-! ## TimelineAnalyzer embedding (`calculate_battle_metrics` from
src/notebooks/ML_Training_Advanced.py, lines 252-349). -/

/-- Lower-case a string character by character (Python `str.lower()` on the
ASCII event-type strings the engine sees). -/
def lowerStr (s : String) : String := String.mk (s.data.map Char.toLower)

/-- Python `needle in haystack` on strings: substring containment. -/
def strContainsSub (needle hay : String) : Bool :=
  hay.data.tails.any (fun t => needle.data.isPrefixOf t)

/-- Source line `event.get('type', '').lower()`. -/
def eventTypeStr (e : TurnEvent) : String := lowerStr (e.etype.getD "")

/-- The accumulator threaded through the single pass of
`calculate_battle_metrics`: event tallies, per-phase event counts, and the
streak-tracking state. -/
structure MetricsAcc where
  total_events : Nat
  move_events : Nat
  switch_events : Nat
  damage_events : Nat
  heal_events : Nat
  status_events : Nat
  effect_events : Nat
  early_game_events : Nat
  mid_game_events : Nat
  late_game_events : Nat
  consecutive_moves : Nat
  consecutive_switches : Nat
  last_action_type : Option String
  current_streak : Nat
deriving DecidableEq

/-- The zero-initialised accumulator (`last_action_type = None`). -/
def initMetricsAcc : MetricsAcc := ⟨0, 0, 0, 0, 0, 0, 0, 0, 0, 0, 0, 0, none, 0⟩

/-- The `if event_type == 'move' ... else: effect_events += 1` chain: bump
exactly one event-category tally for the (lowered) type string. -/
def bumpCategory (s : MetricsAcc) (event_type : String) : MetricsAcc :=
  if event_type = "move" then { s with move_events := s.move_events + 1 }
  else if event_type = "switch" then { s with switch_events := s.switch_events + 1 }
  else if strContainsSub "damage" event_type then { s with damage_events := s.damage_events + 1 }
  else if strContainsSub "heal" event_type then { s with heal_events := s.heal_events + 1 }
  else if strContainsSub "faint" event_type then { s with status_events := s.status_events + 1 }
  else { s with effect_events := s.effect_events + 1 }

/-- The `if event_type in ['move', 'switch']` streak-tracking block: extend
the current streak on a repeat, otherwise flush the finished streak into the
maximum of its type and restart at length 1. -/
def updStreak (s : MetricsAcc) (event_type : String) : MetricsAcc :=
  if event_type = "move" ∨ event_type = "switch" then
    if some event_type = s.last_action_type then
      { s with current_streak := s.current_streak + 1 }
    else
      { s with
        consecutive_moves :=
          if s.last_action_type = some "move" then max s.consecutive_moves s.current_streak
          else s.consecutive_moves
        consecutive_switches :=
          if s.last_action_type = some "switch" then max s.consecutive_switches s.current_streak
          else s.consecutive_switches
        current_streak := 1
        last_action_type := some event_type }
  else s

/-- The body of the inner `for event in turn_events` loop: classify the
event, then track streaks. -/
def processEvent (s : MetricsAcc) (e : TurnEvent) : MetricsAcc :=
  updStreak (bumpCategory s (eventTypeStr e)) (eventTypeStr e)

/-- The body of the outer `for turn_idx, turn in enumerate(turns)` loop:
add the turn's event count to the total and to the phase bucket of
`turn_idx` (early < 3, mid < 8, else late), then walk the turn's events. -/
def processTurn (turn_idx : Nat) (s : MetricsAcc) (t : Turn) : MetricsAcc :=
  let s := { s with total_events := s.total_events + t.events.length }
  let s :=
    if turn_idx < 3 then { s with early_game_events := s.early_game_events + t.events.length }
    else if turn_idx < 8 then { s with mid_game_events := s.mid_game_events + t.events.length }
    else { s with late_game_events := s.late_game_events + t.events.length }
  t.events.foldl processEvent s

/-- The enumerated turn loop. -/
def turnsGo : Nat → MetricsAcc → List Turn → MetricsAcc
  | _, s, [] => s
  | idx, s, t :: rest => turnsGo (idx + 1) (processTurn idx s t) rest

/-- The fixed-shape output record of `calculate_battle_metrics`.  The
`*_intensity`, `events_per_turn` and `move_switch_ratio` fields are exact
rationals; every division the source performs is replicated including its
`max(..., 1)` divisor floors. -/
structure BattleMetrics where
  total_turns : Nat
  winner : Option String
  reason : Option String
  total_events : Nat
  move_events : Nat
  switch_events : Nat
  damage_events : Nat
  heal_events : Nat
  status_events : Nat
  effect_events : Nat
  events_per_turn : Rat
  early_game_intensity : Rat
  mid_game_intensity : Rat
  late_game_intensity : Rat
  move_switch_ratio : Rat
  consecutive_moves : Nat
  consecutive_switches : Nat
  action_diversity : Nat
deriving DecidableEq

/-- Function `calculate_battle_metrics` from src/notebooks/ML_Training_Advanced.py:
single pass over the turns, end-of-pass streak flush, then the output
record with its guarded ratio fields. -/
def calculate_battle_metrics (battle : BattleRecord) : BattleMetrics :=
  let turns := battle.turns
  let total_turns := turns.length
  let s := turnsGo 0 initMetricsAcc turns
  let consecutive_moves :=
    if s.last_action_type = some "move" then max s.consecutive_moves s.current_streak
    else s.consecutive_moves
  let consecutive_switches :=
    if s.last_action_type = some "switch" then max s.consecutive_switches s.current_streak
    else s.consecutive_switches
  { total_turns := total_turns
    winner := battle.winner
    reason := battle.reason
    total_events := s.total_events
    move_events := s.move_events
    switch_events := s.switch_events
    damage_events := s.damage_events
    heal_events := s.heal_events
    status_events := s.status_events
    effect_events := s.effect_events
    events_per_turn := (s.total_events : Rat) / ((max total_turns 1 : Nat) : Rat)
    early_game_intensity := (s.early_game_events : Rat) / ((max (min total_turns 3) 1 : Nat) : Rat)
    mid_game_intensity :=
      if 3 < total_turns then
        (s.mid_game_events : Rat) / ((max (min (total_turns - 3) 5) 1 : Nat) : Rat)
      else 0
    late_game_intensity :=
      if 8 < total_turns then
        (s.late_game_events : Rat) / ((max (total_turns - 8) 1 : Nat) : Rat)
      else 0
    move_switch_ratio := (s.move_events : Rat) / ((max s.switch_events 1 : Nat) : Rat)
    consecutive_moves := consecutive_moves
    consecutive_switches := consecutive_switches
    action_diversity := ((turns.map Turn.events).flatten.map TurnEvent.etype).dedup.length }

/-! ## Helper lemmas -/

/-- Normal form of the table literal for the multiplier 0.5. -/
lemma mkRat_one_two : (mkRat 1 2 : Rat) = 1 / 2 := by
  norm_num [Rat.mkRat_eq_div]

/-- A max-accumulating fold never drops below its accumulator. -/
lemma le_foldl_max {α : Type} (f : α → Rat) :
    ∀ (l : List α) (m : Rat), m ≤ l.foldl (fun acc x => max acc (f x)) m := by
  intro l
  induction l with
  | nil => intro m; simp
  | cons a t ih =>
      intro m
      simpa using le_trans (le_max_left m (f a)) (ih (max m (f a)))

/-- A fold whose step never decreases the accumulator never drops below it. -/
lemma le_foldl_of_step {α : Type} (step : Rat → α → Rat)
    (hstep : ∀ m a, m ≤ step m a) :
    ∀ (l : List α) (m : Rat), m ≤ l.foldl step m := by
  intro l
  induction l with
  | nil => intro m; simp
  | cons a t ih =>
      intro m
      simpa using le_trans (hstep m a) (ih (step m a))

/-- Function `calculate_matchup_score` never falls below its initial accumulator 1. -/
lemma one_le_matchup (attacker_types defender_types : List String) :
    1 ≤ calculate_matchup_score attacker_types defender_types := by
  unfold calculate_matchup_score
  exact le_foldl_of_step _ (fun m a => le_foldl_max _ defender_types m) attacker_types 1

/-- The `elif matchup <= 0.5` branch can never fire: the matchup value is
always at least 1. -/
lemma pairResisted_eq_false (a b : String) : pairResisted a b = false := by
  have h1 := one_le_matchup (get_pokemon_types a) (get_pokemon_types b)
  simp only [pairResisted]
  split
  · rfl
  · simp only [decide_eq_false_iff_not]
    intro hle
    rw [mkRat_one_two] at hle
    linarith

/-- Summing the all-zero image of a list gives zero. -/
lemma sum_map_zero {α : Type} (l : List α) : (l.map (fun _ => (0 : Nat))).sum = 0 := by
  induction l with
  | nil => rfl
  | cons a t ih => simp [ih]

/-- Summing a pointwise sum of two images splits. -/
lemma sum_map_add {α : Type} (l : List α) (g h : α → Nat) :
    (l.map (fun x => g x + h x)).sum = (l.map g).sum + (l.map h).sum := by
  induction l with
  | nil => rfl
  | cons a t ih => simp [ih]; omega

/-- Counting with an everywhere-false predicate yields zero. -/
lemma countPairs_eq_zero (f : String → String → Bool) (hf : ∀ a b, f a b = false)
    (t1 t2 : List String) : countPairs f t1 t2 = 0 := by
  unfold countPairs
  induction t1 with
  | nil => rfl
  | cons a t ih =>
      simp only [List.map_cons, List.sum_cons, hf]
      simp [sum_map_zero, ih]

/-! ## C6 — total registry lookups with documented defaults -/

/-- C6: every registry lookup is total and returns the documented default on
a miss: an effectiveness pair absent from the table yields exactly 1.0, an
unknown species yields types `["Normal"]`, BST 400 and tier `"RU"`, and the
tier buckets are consulted in the fixed order Uber, then OU, then UU, first
match winning.  (No lookup can raise: all four functions are total.) -/
theorem registry_lookup_defaults_c6 :
    (∀ a d, TYPE_EFFECTIVENESS.lookup (a, d) = none → get_type_effectiveness a d = 1)
    ∧ (∀ s, POKEMON_TYPES.lookup s = none → get_pokemon_types s = ["Normal"])
    ∧ (∀ s, POKEMON_BST.lookup s = none → get_pokemon_bst s = 400)
    ∧ (∀ s, get_pokemon_tier s =
        if s ∈ uberSpecies then "Uber"
        else if s ∈ ouSpecies then "OU"
        else if s ∈ uuSpecies then "UU"
        else "RU") := by
  refine ⟨?_, ?_, ?_, ?_⟩
  · intro a d h; simp [get_type_effectiveness, h]
  · intro s h; simp [get_pokemon_types, h]
  · intro s h; simp [get_pokemon_bst, h]
  · intro s
    unfold get_pokemon_tier POKEMON_TIERS
    by_cases h1 : s ∈ uberSpecies <;> by_cases h2 : s ∈ ouSpecies <;>
      by_cases h3 : s ∈ uuSpecies <;> simp [List.find?, h1, h2, h3]

/-- Witness for C6 at concrete inputs: the neutral pair (Normal, Normal) is
absent from the table and resolves to 1.0, and the unregistered species
name "MissingNo" resolves to all three species defaults. -/
theorem registry_lookup_defaults_c6_witness :
    get_type_effectiveness "Normal" "Normal" = 1
    ∧ get_pokemon_types "MissingNo" = ["Normal"]
    ∧ get_pokemon_bst "MissingNo" = 400
    ∧ get_pokemon_tier "MissingNo" = "RU" :=
  ⟨registry_lookup_defaults_c6.1 "Normal" "Normal" (by decide),
   registry_lookup_defaults_c6.2.1 "MissingNo" (by decide),
   registry_lookup_defaults_c6.2.2.1 "MissingNo" (by decide),
   (registry_lookup_defaults_c6.2.2.2 "MissingNo").trans (by decide)⟩

/-! ## C5 — the matchup score is clamped at 1, so resisted counts vanish -/

/-- C5: `calculate_matchup_score` always returns at least 1.0 (exactly 1.0
whenever either type list is empty); consequently both resisted counts of
`calculate_team_type_advantage` are always zero and the advantage score
always equals the difference of the two super-effective counts. -/
theorem matchup_score_clamped_c5 :
    (∀ attacker_types defender_types,
      1 ≤ calculate_matchup_score attacker_types defender_types)
    ∧ (∀ defender_types, calculate_matchup_score [] defender_types = 1)
    ∧ (∀ attacker_types, calculate_matchup_score attacker_types [] = 1)
    ∧ (∀ t1 t2,
        (calculate_team_type_advantage t1 t2).p1_resisted_count = 0
        ∧ (calculate_team_type_advantage t1 t2).p2_resisted_count = 0
        ∧ (calculate_team_type_advantage t1 t2).type_advantage_score =
            ((calculate_team_type_advantage t1 t2).p1_super_effective_count : Int)
              - ((calculate_team_type_advantage t1 t2).p2_super_effective_count : Int)) := by
  refine ⟨one_le_matchup, ?_, ?_, ?_⟩
  · intro d; rfl
  · intro a
    unfold calculate_matchup_score
    induction a with
    | nil => rfl
    | cons x t ih => simp [ih]
  · intro t1 t2
    have h1 : countPairs pairResisted t1 t2 = 0 :=
      countPairs_eq_zero _ pairResisted_eq_false t1 t2
    have h2 : countPairs (fun a b => pairResisted b a) t1 t2 = 0 :=
      countPairs_eq_zero _ (fun a b => pairResisted_eq_false b a) t1 t2
    refine ⟨?_, ?_, ?_⟩ <;>
      simp [calculate_team_type_advantage, h1, h2]

/-! ## C2 — the matchup value versus the plain pairwise maximum -/

/-- The matchup value as the specification words it: the maximum of
`effectiveness(atkType, defType)` over all ordered pairs of an attacker type
and a defender type (written with a fold from 0; every multiplier is
nonnegative and the relevant lists are non-empty, so this is that maximum).
This definition follows the spec's words and exists to be compared against
`calculate_matchup_score`, which was translated from the source. -/
def pairwiseMaxEffectiveness (attacker_types defender_types : List String) : Rat :=
  ((attacker_types.map
      (fun a => defender_types.map (fun d => get_type_effectiveness a d))).flatten).foldl max 0

/-- Lattice identity used when peeling one element off a max-fold. -/
lemma max_shuffle (i x t : Rat) (h : 0 ≤ i) :
    max (max i x) t = max i (max (max 0 x) t) := by
  simp only [max_def]
  split_ifs <;> linarith

/-- A max-accumulating fold factors through its initial accumulator
(for a nonnegative initial value). -/
lemma foldl_max_init {α : Type} (f : α → Rat) :
    ∀ (l : List α) (init : Rat), 0 ≤ init →
      l.foldl (fun m x => max m (f x)) init
        = max init (l.foldl (fun m x => max m (f x)) 0) := by
  intro l
  induction l with
  | nil => intro init h; simp [max_eq_left h]
  | cons a t ih =>
      intro init h
      simp only [List.foldl_cons]
      rw [ih (max init (f a)) (le_trans h (le_max_left _ _)),
        ih (max 0 (f a)) (le_max_left _ _)]
      exact max_shuffle init (f a) _ h

/-- The nested matchup fold factors through its initial accumulator. -/
lemma matchup_fold_init (D : List String) :
    ∀ (A : List String) (init : Rat), 0 ≤ init →
      A.foldl (fun m a => D.foldl (fun m2 d => max m2 (get_type_effectiveness a d)) m) init
        = max init
            (A.foldl (fun m a => D.foldl (fun m2 d => max m2 (get_type_effectiveness a d)) m) 0) := by
  intro A
  induction A with
  | nil => intro init h; simp [max_eq_left h]
  | cons a t ih =>
      intro init h
      simp only [List.foldl_cons]
      have hI : 0 ≤ D.foldl (fun m2 d => max m2 (get_type_effectiveness a d)) 0 :=
        le_foldl_max _ D 0
      rw [foldl_max_init _ D init h,
        ih (max init (D.foldl (fun m2 d => max m2 (get_type_effectiveness a d)) 0))
          (le_trans h (le_max_left _ _)),
        ih (D.foldl (fun m2 d => max m2 (get_type_effectiveness a d)) 0) hI,
        max_assoc]

/-- The flattened pairwise maximum equals the nested fold from the same
initial accumulator. -/
lemma pme_eq_nested_fold (D : List String) :
    ∀ (A : List String) (init : Rat),
      ((A.map (fun a => D.map (fun d => get_type_effectiveness a d))).flatten).foldl max init
        = A.foldl (fun m a => D.foldl (fun m2 d => max m2 (get_type_effectiveness a d)) m) init := by
  intro A
  induction A with
  | nil => intro init; rfl
  | cons a t ih =>
      intro init
      simp only [List.map_cons, List.flatten_cons, List.foldl_append, List.foldl_cons]
      rw [List.foldl_map, ih]

/-- C2 as amended: the matchup value returned by `calculate_matchup_score`
is the pairwise maximum clamped from below at 1.0 (the accumulator starts
at 1.0), not the pairwise maximum itself; the super-effective test
(value ≥ 2.0) nevertheless coincides with "pairwise maximum ≥ 2.0", while
the resisted test (value ≤ 0.5) can never succeed. -/
theorem matchup_clamped_pair_max_c2 :
    ∀ attacker_types defender_types : List String,
      calculate_matchup_score attacker_types defender_types
          = max 1 (pairwiseMaxEffectiveness attacker_types defender_types)
        ∧ (2 ≤ calculate_matchup_score attacker_types defender_types
            ↔ 2 ≤ pairwiseMaxEffectiveness attacker_types defender_types)
        ∧ ¬ calculate_matchup_score attacker_types defender_types ≤ 1 / 2 := by
  intro A D
  have he : calculate_matchup_score A D = max 1 (pairwiseMaxEffectiveness A D) := by
    unfold calculate_matchup_score pairwiseMaxEffectiveness
    rw [pme_eq_nested_fold]
    exact matchup_fold_init D A 1 (by norm_num)
  refine ⟨he, ?_, ?_⟩
  · rw [he, le_max_iff]
    constructor
    · rintro (h | h)
      · norm_num at h
      · exact h
    · exact fun h => Or.inr h
  · have h1 := one_le_matchup A D
    intro hc
    linarith

/-- Counterexample to C2 as stated: for the single-type rosters Fire versus
Water, the pairwise maximum of effectiveness is 0.5 (Fire attacking Water is
resisted), but `calculate_matchup_score` returns 1.0 — the claimed equality
with the plain maximum fails, and the pair is not classified as resisted
even though the maximum is ≤ 0.5. -/
theorem matchup_pair_max_cex_c2 :
    calculate_matchup_score ["Fire"] ["Water"] = 1
      ∧ pairwiseMaxEffectiveness ["Fire"] ["Water"] = mkRat 1 2
      ∧ ¬ calculate_matchup_score ["Fire"] ["Water"]
          = pairwiseMaxEffectiveness ["Fire"] ["Water"] := by
  refine ⟨by decide, by decide, ?_⟩
  intro h
  rw [show calculate_matchup_score ["Fire"] ["Water"] = 1 from by decide,
    show pairwiseMaxEffectiveness ["Fire"] ["Water"] = mkRat 1 2 from by decide,
    mkRat_one_two] at h
  norm_num at h

/-! ## C4 — sign-antisymmetry of the advantage score under roster swap -/

/-- Swapping the two roster arguments of `countPairs` flips the predicate's
argument order: both sides count the same set of ordered pairs. -/
lemma countPairs_swap (f : String → String → Bool) :
    ∀ A B : List String, countPairs f A B = countPairs (fun b a => f a b) B A := by
  intro A
  induction A with
  | nil =>
      intro B
      unfold countPairs
      simp [sum_map_zero]
  | cons a t ih =>
      intro B
      unfold countPairs at ih ⊢
      simp only [List.map_cons, List.sum_cons]
      rw [ih B, sum_map_add]

/-- C4: the scalar advantage score is sign-antisymmetric under roster swap:
`score(A, B) = -score(B, A)` for all species lists A and B. -/
theorem advantage_score_antisymmetric_c4 :
    ∀ A B : List String,
      (calculate_team_type_advantage A B).type_advantage_score
        = -(calculate_team_type_advantage B A).type_advantage_score := by
  intro A B
  simp only [calculate_team_type_advantage]
  rw [countPairs_swap pairSuper B A, countPairs_swap (fun a b => pairSuper b a) B A,
    countPairs_swap pairResisted B A, countPairs_swap (fun a b => pairResisted b a) B A]
  ring

/-! ## C1 — the predictive feature record never reads the turn list -/

/-- C1: leakage-freedom of predictive mode.  Two match records agreeing on
`battle_id`, the two revealed teams, and the outcome winner produce
identical predictive feature records, whatever their turn lists (or any
other field) contain.  In particular a record with `turns = []` yields the
same — complete — feature record as the same match with any turns. -/
theorem pre_battle_features_leakage_free_c1 :
    ∀ b1 b2 : BattleRecord,
      b1.battle_id = b2.battle_id →
      b1.teams_p1 = b2.teams_p1 →
      b1.teams_p2 = b2.teams_p2 →
      b1.winner = b2.winner →
      extract_pre_battle_features b1 = extract_pre_battle_features b2 := by
  intro b1 b2 h1 h2 h3 h4
  unfold extract_pre_battle_features
  rw [h1, h2, h3, h4]

/-- A concrete revealed Pokemon used by the witnesses. -/
def entPikachu : PokemonEntry :=
  ⟨some "Pikachu", some 88, some 95, some "M", some "partially_revealed", none, none, ["thunderbolt"]⟩

/-- A second concrete revealed Pokemon used by the witnesses. -/
def entCharizard : PokemonEntry :=
  ⟨some "Charizard", some 76, some 90, some "F", some "fully_revealed", some "blaze", none, []⟩

/-- A roster entry whose level and HP are both absent. -/
def blankEntry : PokemonEntry := ⟨none, none, none, none, none, none, none, []⟩

/-- A match with two recorded turns. -/
def battleWithTurns : BattleRecord :=
  ⟨some "battle-1", some "gen9randombattle", some 111, some "p1", some "faint", some 1500,
    some 1480, [entCharizard], [entPikachu],
    [⟨[⟨some "move"⟩]⟩, ⟨[⟨some "switch"⟩, ⟨none⟩]⟩]⟩

/-- The same match scrubbed of its turns and of every other
non-pre-battle field. -/
def battleZeroTurns : BattleRecord :=
  ⟨some "battle-1", some "other-format", none, some "p1", none, none, none,
    [entCharizard], [entPikachu], []⟩

/-- Witness for C1: a match with two turns and its zero-turn scrub yield
the same predictive feature record. -/
theorem pre_battle_features_leakage_free_c1_witness :
    extract_pre_battle_features battleWithTurns = extract_pre_battle_features battleZeroTurns :=
  pre_battle_features_leakage_free_c1 battleWithTurns battleZeroTurns rfl rfl rfl rfl

/-! ## C3 — signed cross-roster advantages, except the team-size field -/

/-- A match whose rosters have different sizes (1 versus 2). -/
def teamSizeCexBattle : BattleRecord :=
  ⟨some "battle-2", none, none, none, none, none, none,
    [blankEntry], [blankEntry, blankEntry], []⟩

/-- Counterexample to C3 as stated: with rosters of sizes 1 and 2 the
field `team_size_difference` is `abs(1 - 2) = 1`, not the signed value
`1 - 2 = -1`, so the team-size advantage does not equal p1 minus p2. -/
theorem team_size_difference_not_signed_cex_c3 :
    ¬ (((extract_pre_battle_features teamSizeCexBattle).team_size_difference : Int)
        = ((extract_pre_battle_features teamSizeCexBattle).p1.team_size : Int)
          - ((extract_pre_battle_features teamSizeCexBattle).p2.team_size : Int)) := by
  decide

/-- C3 as amended: the level, HP and BST advantages equal the p1 aggregate
minus the p2 aggregate and negate when the two rosters are exchanged; the
team-size feature, however, is the absolute difference `abs(p1 - p2)` in
the source, hence invariant — not sign-flipped — under roster swap. -/
theorem cross_roster_advantages_c3 :
    ∀ b1 b2 : BattleRecord,
      b1.teams_p1 = b2.teams_p2 →
      b1.teams_p2 = b2.teams_p1 →
      (extract_pre_battle_features b1).level_advantage_p1
          = (extract_pre_battle_features b1).p1.avg_level
            - (extract_pre_battle_features b1).p2.avg_level
        ∧ (extract_pre_battle_features b1).hp_advantage_p1
            = ((extract_pre_battle_features b1).p1.total_hp : Rat)
              - ((extract_pre_battle_features b1).p2.total_hp : Rat)
        ∧ (extract_pre_battle_features b1).bst_advantage_p1
            = (extract_pre_battle_features b1).p1.avg_bst
              - (extract_pre_battle_features b1).p2.avg_bst
        ∧ (extract_pre_battle_features b1).level_advantage_p1
            = -(extract_pre_battle_features b2).level_advantage_p1
        ∧ (extract_pre_battle_features b1).hp_advantage_p1
            = -(extract_pre_battle_features b2).hp_advantage_p1
        ∧ (extract_pre_battle_features b1).bst_advantage_p1
            = -(extract_pre_battle_features b2).bst_advantage_p1
        ∧ (extract_pre_battle_features b1).team_size_difference
            = (extract_pre_battle_features b2).team_size_difference := by
  intro b1 b2 h1 h2
  simp only [extract_pre_battle_features]
  rw [h1, h2]
  refine ⟨by trivial, by trivial, by trivial, by ring, by ring, by ring, by omega⟩

/-- A battle and its roster-swapped counterpart, used by the C3 witness. -/
def swappedBattle : BattleRecord :=
  ⟨some "battle-1", none, none, some "p2", none, none, none,
    [entPikachu], [entCharizard], []⟩

/-- Witness for C3 (amended) at concrete rosters: the three aggregate
advantages negate under the swap and the team-size difference is
unchanged. -/
theorem cross_roster_advantages_c3_witness :
    (extract_pre_battle_features battleZeroTurns).level_advantage_p1
        = -(extract_pre_battle_features swappedBattle).level_advantage_p1
      ∧ (extract_pre_battle_features battleZeroTurns).team_size_difference
          = (extract_pre_battle_features swappedBattle).team_size_difference :=
  ⟨(cross_roster_advantages_c3 battleZeroTurns swappedBattle rfl rfl).2.2.2.1,
   (cross_roster_advantages_c3 battleZeroTurns swappedBattle rfl rfl).2.2.2.2.2.2⟩

/-! ## C10 — level/HP aggregates skip missing-or-zero entries -/

/-- Appending an entry without a usable level leaves the level list
untouched. -/
lemma teamLevels_append_skip (team : List PokemonEntry) (e : PokemonEntry)
    (h : e.level = none ∨ e.level = some 0) :
    teamLevels (team ++ [e]) = teamLevels team := by
  unfold teamLevels
  rw [List.filterMap_append]
  rcases h with h | h <;> simp [h]

/-- Appending an entry without a usable HP leaves the HP list untouched. -/
lemma teamHps_append_skip (team : List PokemonEntry) (e : PokemonEntry)
    (h : e.hp = none ∨ e.hp = some 0) :
    teamHps (team ++ [e]) = teamHps team := by
  unfold teamHps
  rw [List.filterMap_append]
  rcases h with h | h <;> simp [h]

/-- C10: the roster level and HP aggregates are computed only over entries
whose level / HP is present and non-zero — appending an entry with a
missing-or-zero level and HP changes none of `avg_level`, `level_std`,
`total_hp`, `avg_hp` yet still increments `team_size`; when no entry
qualifies the corresponding statistics are 0; and `team_size` always counts
every entry of the roster. -/
theorem roster_aggregates_skip_missing_c10 :
    (∀ (team : List PokemonEntry) (e : PokemonEntry),
      (e.level = none ∨ e.level = some 0) →
      (e.hp = none ∨ e.hp = some 0) →
      (teamBlock (team ++ [e])).avg_level = (teamBlock team).avg_level
        ∧ (teamBlock (team ++ [e])).level_std = (teamBlock team).level_std
        ∧ (teamBlock (team ++ [e])).total_hp = (teamBlock team).total_hp
        ∧ (teamBlock (team ++ [e])).avg_hp = (teamBlock team).avg_hp
        ∧ (teamBlock (team ++ [e])).team_size = (teamBlock team).team_size + 1)
    ∧ (∀ team : List PokemonEntry, teamLevels team = [] →
        (teamBlock team).avg_level = 0 ∧ (teamBlock team).level_std = 0)
    ∧ (∀ team : List PokemonEntry, teamHps team = [] →
        (teamBlock team).total_hp = 0 ∧ (teamBlock team).avg_hp = 0)
    ∧ (∀ team : List PokemonEntry, (teamBlock team).team_size = team.length) := by
  refine ⟨?_, ?_, ?_, ?_⟩
  · intro team e h1 h2
    have hl := teamLevels_append_skip team e h1
    have hh := teamHps_append_skip team e h2
    cases team with
    | nil =>
        simp only [List.nil_append] at hl hh ⊢
        rw [show teamLevels ([] : List PokemonEntry) = [] from rfl] at hl
        rw [show teamHps ([] : List PokemonEntry) = [] from rfl] at hh
        simp [teamBlock, zeroTeamBlock, hl, hh]
    | cons a t =>
        simp only [List.cons_append] at hl hh
        simp [teamBlock, hl, hh]
  · intro team h
    cases team with
    | nil => simp [teamBlock, zeroTeamBlock]
    | cons a t => simp [teamBlock, h]
  · intro team h
    cases team with
    | nil => simp [teamBlock, zeroTeamBlock]
    | cons a t => simp [teamBlock, h]
  · intro team
    cases team with
    | nil => simp [teamBlock, zeroTeamBlock]
    | cons a t => simp [teamBlock]

/-- Witness for C10 at a concrete roster: appending an entry with neither
level nor HP leaves the aggregates unchanged and bumps the entry count,
so `team_size` exceeds the number of contributing entries. -/
theorem roster_aggregates_skip_missing_c10_witness :
    (teamBlock ([entPikachu] ++ [blankEntry])).avg_level = (teamBlock [entPikachu]).avg_level
      ∧ (teamBlock ([entPikachu] ++ [blankEntry])).team_size
          = (teamBlock [entPikachu]).team_size + 1 :=
  ⟨(roster_aggregates_skip_missing_c10.1 [entPikachu] blankEntry (Or.inl rfl) (Or.inl rfl)).1,
   (roster_aggregates_skip_missing_c10.1 [entPikachu] blankEntry
      (Or.inl rfl) (Or.inl rfl)).2.2.2.2⟩

/-! ## C7 — empty timeline yields zeros; ratio divisors floored at 1 -/

/-- The cast of `max n 1` is never zero, so none of the guarded divisions
divide by zero. -/
lemma natmax_cast_ne_zero (n : Nat) : ((max n 1 : Nat) : Rat) ≠ 0 := by
  have h : max n 1 ≠ 0 := by omega
  exact Nat.cast_ne_zero.mpr h

/-- C7: on an empty turn list every count, intensity, ratio and diversity
field of the timeline analyzer is zero; and for every input the
`events_per_turn` and move/switch-ratio divisions use a divisor floored at
1 (so they are exact divisions by a nonzero number, never a division by
zero). -/
theorem timeline_empty_zero_and_guards_c7 :
    (∀ b : BattleRecord, b.turns = [] →
      (calculate_battle_metrics b).total_turns = 0
        ∧ (calculate_battle_metrics b).total_events = 0
        ∧ (calculate_battle_metrics b).move_events = 0
        ∧ (calculate_battle_metrics b).switch_events = 0
        ∧ (calculate_battle_metrics b).damage_events = 0
        ∧ (calculate_battle_metrics b).heal_events = 0
        ∧ (calculate_battle_metrics b).status_events = 0
        ∧ (calculate_battle_metrics b).effect_events = 0
        ∧ (calculate_battle_metrics b).events_per_turn = 0
        ∧ (calculate_battle_metrics b).early_game_intensity = 0
        ∧ (calculate_battle_metrics b).mid_game_intensity = 0
        ∧ (calculate_battle_metrics b).late_game_intensity = 0
        ∧ (calculate_battle_metrics b).move_switch_ratio = 0
        ∧ (calculate_battle_metrics b).consecutive_moves = 0
        ∧ (calculate_battle_metrics b).consecutive_switches = 0
        ∧ (calculate_battle_metrics b).action_diversity = 0)
    ∧ (∀ b : BattleRecord,
        (calculate_battle_metrics b).events_per_turn
            * ((max (calculate_battle_metrics b).total_turns 1 : Nat) : Rat)
          = ((calculate_battle_metrics b).total_events : Rat)
        ∧ (calculate_battle_metrics b).move_switch_ratio
              * ((max (calculate_battle_metrics b).switch_events 1 : Nat) : Rat)
            = ((calculate_battle_metrics b).move_events : Rat)) := by
  constructor
  · intro b h
    simp [calculate_battle_metrics, h, turnsGo, initMetricsAcc]
  · intro b
    simp only [calculate_battle_metrics]
    constructor <;> exact div_mul_cancel₀ _ (natmax_cast_ne_zero _)

/-- Witness for C7: the concrete zero-turn match evaluates to all-zero
metrics, and its guarded ratios multiply back exactly. -/
theorem timeline_empty_zero_and_guards_c7_witness :
    (calculate_battle_metrics battleZeroTurns).total_events = 0
      ∧ (calculate_battle_metrics battleZeroTurns).events_per_turn = 0
      ∧ (calculate_battle_metrics battleZeroTurns).move_switch_ratio
            * ((max (calculate_battle_metrics battleZeroTurns).switch_events 1 : Nat) : Rat)
          = ((calculate_battle_metrics battleZeroTurns).move_events : Rat) :=
  ⟨(timeline_empty_zero_and_guards_c7.1 battleZeroTurns rfl).2.1,
   (timeline_empty_zero_and_guards_c7.1 battleZeroTurns rfl).2.2.2.2.2.2.2.2.1,
   (timeline_empty_zero_and_guards_c7.2 battleZeroTurns).2⟩

/-! ## C9 — total, single-bucket event classification -/

/-- The sum of the six event-category tallies. -/
def catSum (s : MetricsAcc) : Nat :=
  s.move_events + s.switch_events + s.damage_events + s.heal_events
    + s.status_events + s.effect_events

/-- Classifying one event bumps exactly one category tally. -/
lemma catSum_bumpCategory (s : MetricsAcc) (ty : String) :
    catSum (bumpCategory s ty) = catSum s + 1 := by
  unfold bumpCategory catSum
  split_ifs <;> simp <;> omega

/-- Streak tracking does not touch the category tallies. -/
lemma catSum_updStreak (s : MetricsAcc) (ty : String) :
    catSum (updStreak s ty) = catSum s := by
  unfold updStreak catSum
  split_ifs <;> rfl

/-- Classification does not touch the running total. -/
lemma total_bumpCategory (s : MetricsAcc) (ty : String) :
    (bumpCategory s ty).total_events = s.total_events := by
  unfold bumpCategory
  split_ifs <;> rfl

/-- Streak tracking does not touch the running total. -/
lemma total_updStreak (s : MetricsAcc) (ty : String) :
    (updStreak s ty).total_events = s.total_events := by
  unfold updStreak
  split_ifs <;> rfl

/-- Over one turn's events, the category sum grows by the number of events
and the running total is untouched. -/
lemma events_fold_inv :
    ∀ (es : List TurnEvent) (s : MetricsAcc),
      catSum (es.foldl processEvent s) = catSum s + es.length
        ∧ (es.foldl processEvent s).total_events = s.total_events := by
  intro es
  induction es with
  | nil => intro s; simp
  | cons e t ih =>
      intro s
      have h1 := (ih (processEvent s e)).1
      have h2 := (ih (processEvent s e)).2
      have hc : catSum (processEvent s e) = catSum s + 1 := by
        unfold processEvent
        rw [catSum_updStreak, catSum_bumpCategory]
      have ht : (processEvent s e).total_events = s.total_events := by
        unfold processEvent
        rw [total_updStreak, total_bumpCategory]
      constructor
      · simp only [List.foldl_cons, List.length_cons]
        rw [h1, hc]
        omega
      · simp only [List.foldl_cons]
        rw [h2, ht]

/-- Over one full turn, total and category sum both grow by the turn's
event count. -/
lemma processTurn_inv (idx : Nat) (s : MetricsAcc) (t : Turn) :
    catSum (processTurn idx s t) = catSum s + t.events.length
      ∧ (processTurn idx s t).total_events = s.total_events + t.events.length := by
  unfold processTurn
  constructor
  · rw [(events_fold_inv t.events _).1]
    split_ifs <;> rfl
  · rw [(events_fold_inv t.events _).2]
    split_ifs <;> rfl

/-- The `total = category sum` invariant is preserved by the whole pass. -/
lemma turnsGo_inv :
    ∀ (ts : List Turn) (idx : Nat) (s : MetricsAcc),
      s.total_events = catSum s →
      (turnsGo idx s ts).total_events = catSum (turnsGo idx s ts) := by
  intro ts
  induction ts with
  | nil => intro idx s h; exact h
  | cons t rest ih =>
      intro idx s h
      have hp := processTurn_inv idx s t
      exact ih (idx + 1) (processTurn idx s t) (by omega)

/-- C9: event classification is total and single-bucket: every event lands
in exactly one of the six categories, so the category tallies always sum to
the total event count; an event with no `type` field lands in the catch-all
`effect` bucket. -/
theorem event_classification_total_c9 :
    (∀ b : BattleRecord,
      (calculate_battle_metrics b).total_events
        = (calculate_battle_metrics b).move_events
          + (calculate_battle_metrics b).switch_events
          + (calculate_battle_metrics b).damage_events
          + (calculate_battle_metrics b).heal_events
          + (calculate_battle_metrics b).status_events
          + (calculate_battle_metrics b).effect_events)
    ∧ (∀ b : BattleRecord, b.turns = [⟨[⟨none⟩]⟩] →
        (calculate_battle_metrics b).effect_events = 1
          ∧ (calculate_battle_metrics b).total_events = 1) := by
  constructor
  · intro b
    simp only [calculate_battle_metrics]
    exact turnsGo_inv b.turns 0 initMetricsAcc rfl
  · intro b h
    constructor <;>
      simp [calculate_battle_metrics, h, turnsGo, processTurn, processEvent,
        eventTypeStr, lowerStr, bumpCategory, updStreak, strContainsSub, initMetricsAcc]

/-- A match whose single event has no `type` field. -/
def battleNoneEvent : BattleRecord :=
  ⟨some "battle-3", none, none, none, none, none, none, [], [], [⟨[⟨none⟩]⟩]⟩

/-- Witness for C9: the typeless event is counted, once, in the catch-all
`effect` bucket. -/
theorem event_classification_total_c9_witness :
    (calculate_battle_metrics battleNoneEvent).effect_events = 1
      ∧ (calculate_battle_metrics battleNoneEvent).total_events = 1 :=
  event_classification_total_c9.2 battleNoneEvent rfl

/-! ## C8 — streak maxima with end-of-pass flush -/

/-- Does a (lowered) event type participate in streak tracking?
(`event_type in ['move', 'switch']`). -/
def isActionType (ty : String) : Bool :=
  ty == "move" || ty == "switch"

/-- The move/switch subsequence of a match's (lowered) event types, in
timeline order. -/
def actionTypes (b : BattleRecord) : List String :=
  (((b.turns.map Turn.events).flatten).map eventTypeStr).filter isActionType

/-- Run-length encoding worker: `rleAux a n l` encodes `replicate n a ++ l`
into maximal runs (see `rle_flatten`). -/
def rleAux (a : String) (n : Nat) : List String → List (String × Nat)
  | [] => [(a, n)]
  | b :: l => if b = a then rleAux a (n + 1) l else (a, n) :: rleAux b 1 l

/-- Run-length encoding of a list: its maximal runs, each as
(value, run length). -/
def rle : List String → List (String × Nat)
  | [] => []
  | a :: l => rleAux a 1 l

/-- The largest run length carried by label `x` in a run-length encoding. -/
def maxRunRle (x : String) (runs : List (String × Nat)) : Nat :=
  runs.foldr (fun p m => if p.1 = x then max p.2 m else m) 0

/-- The maximum length of a maximal run of consecutive `x` entries in a
list (0 when there are none): the specification's streak quantity. -/
def maxRun (x : String) (l : List String) : Nat := maxRunRle x (rle l)

/-- Worker `rleAux` really decomposes its input into runs: expanding the encoding
reproduces `replicate n a ++ l`. -/
lemma rleAux_flatten :
    ∀ (l : List String) (a : String) (n : Nat),
      ((rleAux a n l).map (fun p => List.replicate p.2 p.1)).flatten
        = List.replicate n a ++ l := by
  intro l
  induction l with
  | nil => intro a n; simp [rleAux]
  | cons b t ih =>
      intro a n
      by_cases hb : b = a
      · subst hb
        rw [rleAux, if_pos rfl, ih]
        rw [List.replicate_succ', List.append_assoc]
        rfl
      · rw [rleAux, if_neg hb]
        simp [ih]

/-- Encoding `rle` is a faithful run-length decomposition, so the entries consulted
by `maxRunRle` are exactly the maximal runs of the list. -/
lemma rle_flatten (l : List String) :
    ((rle l).map (fun p => List.replicate p.2 p.1)).flatten = l := by
  cases l with
  | nil => rfl
  | cons a t => simpa using rleAux_flatten t a 1

/-- The streak-machine state: the last action type, the current streak
length, and the two streak maxima. -/
structure SSt where
  last : Option String
  cur : Nat
  bm : Nat
  bs : Nat
deriving DecidableEq

/-- The projection of the full metrics accumulator onto the streak state. -/
def projS (s : MetricsAcc) : SSt :=
  ⟨s.last_action_type, s.current_streak, s.consecutive_moves, s.consecutive_switches⟩

/-- The streak step of `updStreak`, on the projected state. -/
def sStep (t : SSt) (ty : String) : SSt :=
  if ty = "move" ∨ ty = "switch" then
    if some ty = t.last then { t with cur := t.cur + 1 }
    else
      { last := some ty
        cur := 1
        bm := if t.last = some "move" then max t.bm t.cur else t.bm
        bs := if t.last = some "switch" then max t.bs t.cur else t.bs }
  else t

/-- The end-of-pass flush of `calculate_battle_metrics`, on the projected
state: the final (consecutive_moves, consecutive_switches) pair. -/
def flushPair (t : SSt) : Nat × Nat :=
  (if t.last = some "move" then max t.bm t.cur else t.bm,
   if t.last = some "switch" then max t.bs t.cur else t.bs)

/-- Classification does not touch the streak state. -/
lemma projS_bumpCategory (s : MetricsAcc) (ty : String) :
    projS (bumpCategory s ty) = projS s := by
  unfold bumpCategory
  split_ifs <;> rfl

/-- Streak tracking acts on the projected state as `sStep`. -/
lemma projS_updStreak (s : MetricsAcc) (ty : String) :
    projS (updStreak s ty) = sStep (projS s) ty := by
  unfold updStreak sStep
  dsimp only [projS]
  split_ifs <;> rfl

/-- One event advances the projected streak state by `sStep` on the
event's lowered type. -/
lemma projS_processEvent (s : MetricsAcc) (e : TurnEvent) :
    projS (processEvent s e) = sStep (projS s) (eventTypeStr e) := by
  unfold processEvent
  rw [projS_updStreak, projS_bumpCategory]

/-- Folding a turn's events advances the projected state by folding
`sStep` over the lowered types. -/
lemma projS_events_fold :
    ∀ (es : List TurnEvent) (s : MetricsAcc),
      projS (es.foldl processEvent s) = (es.map eventTypeStr).foldl sStep (projS s) := by
  intro es
  induction es with
  | nil => intro s; rfl
  | cons e t ih =>
      intro s
      simp only [List.foldl_cons, List.map_cons, ih, projS_processEvent]

/-- One full turn advances the projected state by its events' types. -/
lemma projS_processTurn (idx : Nat) (s : MetricsAcc) (t : Turn) :
    projS (processTurn idx s t) = (t.events.map eventTypeStr).foldl sStep (projS s) := by
  unfold processTurn
  rw [projS_events_fold]
  congr 1
  split_ifs <;> rfl

/-- The whole pass advances the projected state by the flattened timeline's
types. -/
lemma projS_turnsGo :
    ∀ (ts : List Turn) (idx : Nat) (s : MetricsAcc),
      projS (turnsGo idx s ts)
        = (((ts.map Turn.events).flatten).map eventTypeStr).foldl sStep (projS s) := by
  intro ts
  induction ts with
  | nil => intro idx s; rfl
  | cons t rest ih =>
      intro idx s
      simp only [turnsGo, List.map_cons, List.flatten_cons, List.map_append,
        List.foldl_append, ih, projS_processTurn]

/-- Non-action types do not move the streak machine. -/
lemma sStep_skip (t : SSt) (ty : String) (h : isActionType ty = false) :
    sStep t ty = t := by
  unfold sStep
  unfold isActionType at h
  simp only [Bool.or_eq_false_iff, beq_eq_false_iff_ne] at h
  rw [if_neg]
  rintro (h1 | h1)
  · exact h.1 h1
  · exact h.2 h1

/-- The streak machine only sees the move/switch subsequence. -/
lemma foldl_sStep_filter :
    ∀ (l : List String) (t : SSt),
      l.foldl sStep t = (l.filter isActionType).foldl sStep t := by
  intro l
  induction l with
  | nil => intro t; rfl
  | cons a l ih =>
      intro t
      cases ha : isActionType a with
      | true =>
          rw [List.foldl_cons, ih (sStep t a)]
          simp [List.filter_cons, ha]
      | false =>
          rw [List.foldl_cons, sStep_skip t a ha, ih]
          simp [List.filter_cons, ha]

/-- Core streak-machine lemma: from a state carrying an open streak of
`cur` repetitions of `last` and bests `bm`, `bs`, running the machine over
the remaining action types and flushing at the end yields, per action type,
the best of the carried bound and the largest matching run of
`replicate cur last ++ l` (as decomposed by `rleAux last cur l`). -/
lemma flush_foldl_sStep :
    ∀ l : List String, (∀ ty ∈ l, isActionType ty = true) →
      ∀ (last : String) (cur bm bs : Nat),
        flushPair (l.foldl sStep ⟨some last, cur, bm, bs⟩)
          = (max bm (maxRunRle "move" (rleAux last cur l)),
             max bs (maxRunRle "switch" (rleAux last cur l))) := by
  intro l
  induction l with
  | nil =>
      intro _ last cur bm bs
      by_cases hm : last = "move"
      · subst hm
        simp [flushPair, rleAux, maxRunRle]
      · by_cases hs : last = "switch"
        · subst hs
          simp [flushPair, rleAux, maxRunRle]
        · simp [flushPair, rleAux, maxRunRle, hm, hs]
  | cons a l ih =>
      intro hall last cur bm bs
      have ha : a = "move" ∨ a = "switch" := by
        have := hall a (List.mem_cons_self a l)
        unfold isActionType at this
        simp only [Bool.or_eq_true, beq_iff_eq] at this
        exact this
      have hall' : ∀ ty ∈ l, isActionType ty = true :=
        fun ty hty => hall ty (List.mem_cons_of_mem a hty)
      rw [List.foldl_cons]
      by_cases hal : a = last
      · subst hal
        have hstep : sStep ⟨some a, cur, bm, bs⟩ a = ⟨some a, cur + 1, bm, bs⟩ := by
          unfold sStep
          rw [if_pos ha, if_pos rfl]
        rw [hstep, ih hall' a (cur + 1) bm bs, rleAux, if_pos rfl]
      · have hstep : sStep ⟨some last, cur, bm, bs⟩ a
            = ⟨some a, 1, if last = "move" then max bm cur else bm,
               if last = "switch" then max bs cur else bs⟩ := by
          unfold sStep
          rw [if_pos ha, if_neg (by simp [hal])]
          simp
        rw [hstep, ih hall' a 1 _ _, rleAux, if_neg hal]
        unfold maxRunRle
        simp only [List.foldr_cons, Prod.mk.injEq]
        by_cases hm : last = "move"
        · subst hm
          simp only [reduceIte]
          exact ⟨by omega, by simp⟩
        · by_cases hs : last = "switch"
          · subst hs
            simp only [reduceIte]
            exact ⟨by simp, by omega⟩
          · simp [hm, hs]

/-- Running the streak machine from its initial state over a list of action
types and flushing at the end yields exactly the two maximal-run lengths. -/
lemma streak_machine_spec :
    ∀ l : List String, (∀ ty ∈ l, isActionType ty = true) →
      flushPair (l.foldl sStep ⟨none, 0, 0, 0⟩)
        = (maxRun "move" l, maxRun "switch" l) := by
  intro l h
  cases l with
  | nil => rfl
  | cons a t =>
      have ha : a = "move" ∨ a = "switch" := by
        have := h a (List.mem_cons_self a t)
        unfold isActionType at this
        simp only [Bool.or_eq_true, beq_iff_eq] at this
        exact this
      have ht : ∀ ty ∈ t, isActionType ty = true :=
        fun ty hty => h ty (List.mem_cons_of_mem a hty)
      have hstep : sStep ⟨none, 0, 0, 0⟩ a = ⟨some a, 1, 0, 0⟩ := by
        unfold sStep
        rw [if_pos ha, if_neg (by simp)]
        simp
      rw [List.foldl_cons, hstep, flush_foldl_sStep t ht a 1 0 0]
      simp [maxRun, rle]

/-- C8: for every match, `consecutive_moves` is the maximum length of a
maximal run of consecutive `move` entries within the move/switch
subsequence of the timeline (0 when there are none), and symmetrically for
`consecutive_switches`; the end-of-pass flush is accounted for, so a streak
reaching the final event is reflected in the maxima. -/
theorem streak_maxima_c8 :
    ∀ b : BattleRecord,
      (calculate_battle_metrics b).consecutive_moves = maxRun "move" (actionTypes b)
        ∧ (calculate_battle_metrics b).consecutive_switches
            = maxRun "switch" (actionTypes b) := by
  intro b
  have h1 : ((calculate_battle_metrics b).consecutive_moves,
      (calculate_battle_metrics b).consecutive_switches)
      = flushPair (projS (turnsGo 0 initMetricsAcc b.turns)) := rfl
  have h2 : flushPair (projS (turnsGo 0 initMetricsAcc b.turns))
      = (maxRun "move" (actionTypes b), maxRun "switch" (actionTypes b)) := by
    rw [projS_turnsGo b.turns 0 initMetricsAcc,
      show projS initMetricsAcc = (⟨none, 0, 0, 0⟩ : SSt) from rfl,
      foldl_sStep_filter]
    exact streak_machine_spec _ (fun ty hty => (List.mem_filter.mp hty).2)
  have h := h1.trans h2
  exact ⟨congrArg Prod.fst h, congrArg Prod.snd h⟩
